import Mathlib

/-
Verification development for the vita-monit gateway (src/src/ipc/protocol-utils.ts
and src/src/ipc/main.ts).

Modelling conventions:
- Byte buffers (Node `Buffer`) are `List Nat`, one element per byte.
- JS objects whose keys may be present-with-`undefined` or absent are modelled
  with `Option (Option α)` fields (outer layer: key present?; inner layer:
  value or `undefined`); stored device records collapse absent/undefined to
  `Option α` since the code never distinguishes the two on reads.
- Fallible JS code (a thrown exception) is `Except String α`; the error string
  records the exception message.
- The wall clock (`new Date().toLocaleString()`) is threaded through as an
  explicit `now : String` parameter.
- Renderer notifications (`mainWindow?.webContents.send`) and MQTT transport
  calls are I/O to the out-of-scope UI/broker layers and are elided; only the
  parse results, registry mutations and the generated acknowledgment bytes are
  modelled.
-/

/-- `buffer.slice(a, b)`: bytes in the half-open range `[a, b)`. -/
def bslice (buf : List Nat) (a b : Nat) : List Nat :=
  (buf.drop a).take (b - a)

/-- `buffer.readUInt8(off)`. All call sites are bounds-checked by prior
length validation, so the out-of-range default is never observed. -/
def readUInt8 (buf : List Nat) (off : Nat) : Nat :=
  buf.getD off 0

/-- `buffer.readUInt16BE(off)`: big-endian 16-bit read. -/
def readUInt16BE (buf : List Nat) (off : Nat) : Nat :=
  buf.getD off 0 * 256 + buf.getD (off + 1) 0

/-- `buffer.readUInt32BE(off)`: big-endian 32-bit read. -/
def readUInt32BE (buf : List Nat) (off : Nat) : Nat :=
  buf.getD off 0 * 16777216 + buf.getD (off + 1) 0 * 65536 +
    buf.getD (off + 2) 0 * 256 + buf.getD (off + 3) 0

/-- `buffer.readUInt32LE(off)`: little-endian 32-bit read. -/
def readUInt32LE (buf : List Nat) (off : Nat) : Nat :=
  buf.getD off 0 + buf.getD (off + 1) 0 * 256 +
    buf.getD (off + 2) 0 * 65536 + buf.getD (off + 3) 0 * 16777216

/-- `buffer.readInt32BE(off)`: signed big-endian 32-bit read (two's complement). -/
def readInt32BE (buf : List Nat) (off : Nat) : Int :=
  let u := readUInt32BE buf off
  if u < 2147483648 then (u : Int) else (u : Int) - 4294967296

/-- One lowercase hex digit. -/
def hexDigitChar (n : Nat) : Char :=
  if n < 10 then Char.ofNat (48 + n) else Char.ofNat (87 + n)

/-- One byte as two lowercase hex characters. -/
def byteToHex (b : Nat) : String :=
  String.mk [hexDigitChar (b / 16 % 16), hexDigitChar (b % 16)]

/-- `buffer.toString('hex')`. -/
def bytesToHex (buf : List Nat) : String :=
  String.join (buf.map byteToHex)

/-- `buffer.toString('ascii')`: Node masks each byte to 7 bits. -/
def bytesToAscii (buf : List Nat) : String :=
  String.mk (buf.map (fun b => Char.ofNat (b % 128)))

/-- `String.prototype.padStart(n, c)`. -/
def jsPadStart (s : String) (n : Nat) (c : Char) : String :=
  if n ≤ s.length then s
  else String.mk (List.replicate (n - s.length) c) ++ s

/-- Value of a hex digit character, if it is one. -/
def hexVal (c : Char) : Option Nat :=
  if '0' ≤ c ∧ c ≤ '9' then some (c.toNat - 48)
  else if 'a' ≤ c ∧ c ≤ 'f' then some (c.toNat - 87)
  else if 'A' ≤ c ∧ c ≤ 'F' then some (c.toNat - 55)
  else none

/-- `Buffer.from(s, 'hex')` on a character list: consume hex-digit pairs,
stopping at the first pair that is not two hex digits (Node semantics; a
trailing lone character is dropped). -/
def bufferFromHexList : List Char → List Nat
  | c1 :: c2 :: rest =>
    match hexVal c1, hexVal c2 with
    | some hi, some lo => (hi * 16 + lo) :: bufferFromHexList rest
    | _, _ => []
  | _ => []

/-- `Buffer.from(s, 'hex')`. -/
def bufferFromHex (s : String) : List Nat :=
  bufferFromHexList s.data

/-- `clientId.replace(/:/g, '')`. -/
def stripColons (s : String) : String :=
  String.mk (s.data.filter (fun c => c ≠ ':'))

/-- The message of the `RangeError` thrown by `Number.prototype.toString`
when the radix argument is invalid. -/
def rangeErrorMsg : String := "RangeError: toString() radix must be between 2 and 36"

/-- `byte.toString('hex')` where `byte` is a JS Number (the source's
`_parseMAC` maps this over `Array.from(macBuffer)`, whose elements are
Numbers, not Buffers). Per ECMA-262, `Number.prototype.toString(radix)`
computes ToIntegerOrInfinity('hex') = 0, which lies outside the allowed
range [2, 36], so a RangeError is thrown unconditionally. -/
def numberToStringRadixHex (_b : Nat) : Except String String :=
  .error rangeErrorMsg

namespace ProtocolUtils

/-- Frame type constants (`ProtocolUtils.FRAME_TYPE`). -/
def FRAME_TYPE.BOOT_VERSION : Nat := 0xAA44

def FRAME_TYPE.HEALTH_DATA : Nat := 0xAA55

def FRAME_TYPE.ALARM_DATA : Nat := 0xAA77

/-- `ProtocolUtils.RESPONSE_STATUS`. -/
def RESPONSE_STATUS.FAIL : Nat := 0x00

def RESPONSE_STATUS.SUCCESS : Nat := 0x01

/-- `ProtocolUtils.UPGRADE_STATUS`. -/
def UPGRADE_STATUS.NO_UPGRADE : Nat := 0x00

def UPGRADE_STATUS.NEED_UPGRADE : Nat := 0x01

/-- `ProtocolUtils.PACKET_TAIL`. -/
def PACKET_TAIL : Nat := 0x0D

/-- `ProtocolUtils.parseHeader`: big-endian 16-bit discriminant, `null`
when the buffer holds fewer than 2 bytes. -/
def parseHeader (buffer : List Nat) : Option Nat :=
  if buffer.length < 2 then none else some (readUInt16BE buffer 0)

/-- `ProtocolUtils._parseMAC`: maps `byte.toString('hex').padStart(2, '0')`
over the bytes and joins with `':'`. Because `toString('hex')` throws a
RangeError (see `numberToStringRadixHex`), this function errors on every
nonempty input; on the empty list the callback never runs and it returns "". -/
def _parseMAC (macBuffer : List Nat) : Except String String := do
  let parts ← macBuffer.mapM (fun b => do
    let s ← numberToStringRadixHex b
    pure (jsPadStart s 2 '0'))
  pure (String.intercalate ":" parts)

/-- `ProtocolUtils._parseTimestamp` reads a little-endian u32 seconds value.
The source then renders it as `new Date(ts * 1000).toLocaleString('zh-CN')`,
a host-locale/timezone-dependent display string; the embedding keeps the
underlying numeric seconds value, which determines that string. -/
def _parseTimestamp (timestampBuffer : List Nat) : Nat :=
  readUInt32LE timestampBuffer 0

/-- `ProtocolUtils._parseTemperature`: signed big-endian 32-bit value
divided by 10. -/
def _parseTemperature (tempBuffer : List Nat) : Rat :=
  (readInt32BE tempBuffer 0 : Rat) / 10

/-- `ProtocolUtils._parseWearStatus`: bit 0 decides worn / not worn. -/
def _parseWearStatus (statusByte : Nat) : String :=
  if statusByte % 2 = 1 then "已佩戴" else "未佩戴"

/-- `ProtocolUtils._parseAlarmType`: bit 0 pushes the low-battery alarm,
then bit 1 pushes the SOS alarm; an empty result becomes the unknown alarm. -/
def _parseAlarmType (alarmByte : Nat) : List String :=
  let alarms :=
    (if alarmByte % 2 = 1 then ["低电量报警"] else []) ++
      (if alarmByte / 2 % 2 = 1 then ["SOS报警"] else [])
  if alarms.length > 0 then alarms else ["未知报警"]

/-- Result record of `parseBootVersionFrame`. -/
structure BootVersionRecord where
  frameType : Nat
  mac : String
  softwareVersion : String
  rawData : String
  deriving Repr, DecidableEq

/-- The embedded AA66 health block of a health-data frame. -/
structure HealthBlock where
  timestamp : Nat
  frameCount : Nat
  heartRate : Nat
  bloodOxygen : Nat
  wearStatus : String
  wristTemp : Rat
  bodyTemp : Rat
  wifiMac : String
  deriving Repr, DecidableEq

/-- Result record of `parseHealthDataFrame`. -/
structure HealthDataRecord where
  frameType : Nat
  mac : String
  battery : Nat
  packetSeq : Nat
  packetLength : Nat
  rawData : String
  healthData : Option HealthBlock
  deriving Repr, DecidableEq

/-- The optional trailing health sub-block of an alarm frame. -/
structure AlarmHealthBlock where
  heartRate : Nat
  bloodOxygen : Nat
  wearStatus : String
  deriving Repr, DecidableEq

/-- Result record of `parseAlarmDataFrame`. -/
structure AlarmDataRecord where
  frameType : Nat
  mac : String
  packetLength : Nat
  alarmType : List String
  rawData : String
  healthData : Option AlarmHealthBlock
  deriving Repr, DecidableEq

/-- `ProtocolUtils.parseBootVersionFrame`: `null` unless the length is
exactly 12 and byte 11 is the packet tail; otherwise builds the record
(whose `mac` field evaluation throws, see `_parseMAC`). -/
def parseBootVersionFrame (buffer : List Nat) :
    Except String (Option BootVersionRecord) :=
  if buffer.length ≠ 12 ∨ buffer.getD 11 0 ≠ PACKET_TAIL then .ok none
  else do
    let mac ← _parseMAC (bslice buffer 2 8)
    .ok (some
      { frameType := FRAME_TYPE.BOOT_VERSION
        mac := mac
        softwareVersion := bytesToAscii (bslice buffer 8 11)
        rawData := bytesToHex buffer })

/-- `ProtocolUtils.parseHealthDataFrame`: `null` unless length ≥ 13 and the
last byte is the packet tail; then the base record, plus the embedded health
block when the slice between offset 12 and the tail holds at least 24 bytes. -/
def parseHealthDataFrame (buffer : List Nat) :
    Except String (Option HealthDataRecord) :=
  if buffer.length < 13 ∨ buffer.getD (buffer.length - 1) 0 ≠ PACKET_TAIL then .ok none
  else do
    let mac ← _parseMAC (bslice buffer 2 8)
    let baseInfo : HealthDataRecord :=
      { frameType := FRAME_TYPE.HEALTH_DATA
        mac := mac
        battery := readUInt8 buffer 8
        packetSeq := readUInt8 buffer 9
        packetLength := readUInt16BE buffer 10
        rawData := bytesToHex buffer
        healthData := none }
    let healthBlock := bslice buffer 12 (buffer.length - 1)
    if healthBlock.length < 24 then .ok (some baseInfo)
    else do
      let wifiMac ← _parseMAC (bslice healthBlock 21 27)
      .ok (some
        { baseInfo with
            healthData := some
              { timestamp := _parseTimestamp (bslice healthBlock 2 6)
                frameCount := readUInt32BE healthBlock 6
                heartRate := readUInt8 healthBlock 10
                bloodOxygen := readUInt8 healthBlock 11
                wearStatus := _parseWearStatus (readUInt8 healthBlock 12)
                wristTemp := _parseTemperature (bslice healthBlock 13 17)
                bodyTemp := _parseTemperature (bslice healthBlock 17 21)
                wifiMac := wifiMac } })

/-- `ProtocolUtils.parseAlarmDataFrame`: `null` unless length ≥ 13 and the
last byte is the packet tail; then the alarm record, plus an optional health
sub-block when the slice after offset 11 (tail excluded) holds ≥ 24 bytes. -/
def parseAlarmDataFrame (buffer : List Nat) :
    Except String (Option AlarmDataRecord) :=
  if buffer.length < 13 ∨ buffer.getD (buffer.length - 1) 0 ≠ PACKET_TAIL then .ok none
  else do
    let mac ← _parseMAC (bslice buffer 2 8)
    let baseInfo : AlarmDataRecord :=
      { frameType := FRAME_TYPE.ALARM_DATA
        mac := mac
        packetLength := readUInt16BE buffer 8
        alarmType := _parseAlarmType (readUInt8 buffer 10)
        rawData := bytesToHex buffer
        healthData := none }
    let healthBlock := bslice buffer 11 (buffer.length - 1)
    if healthBlock.length ≥ 24 then
      .ok (some
        { baseInfo with
            healthData := some
              { heartRate := readUInt8 healthBlock 10
                bloodOxygen := readUInt8 healthBlock 11
                wearStatus := _parseWearStatus (readUInt8 healthBlock 12) } })
    else .ok (some baseInfo)

/-- `ProtocolUtils.generateResponseFrame`: downlink acknowledgment bytes for
the three known frame types, `null` otherwise. `Buffer.from(mac, 'hex')`
here uses `'hex'` as a *Buffer encoding*, which is valid (unlike the Number
radix in `_parseMAC`). -/
def generateResponseFrame (mac : String) (frameType : Nat) : Option (List Nat) :=
  let macBuffer := bufferFromHex mac
  if frameType = FRAME_TYPE.BOOT_VERSION then
    some ([0xAA, 0x44] ++ macBuffer ++
      [UPGRADE_STATUS.NO_UPGRADE] ++ [0x00] ++ [PACKET_TAIL])
  else if frameType = FRAME_TYPE.HEALTH_DATA then
    some ([0xAA, 0x55] ++ macBuffer ++ [RESPONSE_STATUS.SUCCESS] ++ [PACKET_TAIL])
  else if frameType = FRAME_TYPE.ALARM_DATA then
    some ([0xAA, 0x77] ++ macBuffer ++ [RESPONSE_STATUS.SUCCESS] ++ [PACKET_TAIL])
  else none

end ProtocolUtils

namespace DeviceManager

/-- A log entry (`{time, type, content}`). -/
structure LogEntry where
  time : String
  type : String
  content : String
  deriving Repr, DecidableEq

/-- A stored device record. Every key that the code ever writes is a field;
`none` stands for absent-or-undefined (the code never distinguishes the two
when reading a stored record). `healthData` is initialised to the empty
object `{}` on `addDevice` and never written again, so it is a unit marker. -/
structure DeviceRecord where
  clientId : Option String := none
  status : Option String := none
  connectTime : Option String := none
  disconnectTime : Option String := none
  processId : Option Nat := none
  healthData : Option Unit := none
  alarm : Option (List String) := none
  alarmTime : Option String := none
  heartRate : Option Nat := none
  bloodOxygen : Option Nat := none
  wristTemp : Option Rat := none
  bodyTemp : Option Rat := none
  wearStatus : Option String := none
  deriving Repr, DecidableEq

/-- A partial update object passed to `updateDeviceData`. The outer `Option`
says whether the key is present in the object literal at all; the inner
`Option` is the value, `none` meaning `undefined` (present keys overwrite on
spread even when their value is `undefined`). -/
structure UpdateData where
  status : Option (Option String) := none
  disconnectTime : Option (Option String) := none
  alarm : Option (Option (List String)) := none
  alarmTime : Option (Option String) := none
  heartRate : Option (Option Nat) := none
  bloodOxygen : Option (Option Nat) := none
  wristTemp : Option (Option Rat) := none
  bodyTemp : Option (Option Rat) := none
  wearStatus : Option (Option String) := none
  deriving Repr, DecidableEq

/-- JS `Map.prototype.get` on an insertion-ordered association list. -/
def mapGet (l : List (String × DeviceRecord)) (k : String) : Option DeviceRecord :=
  match l with
  | [] => none
  | (k', v) :: t => if k' = k then some v else mapGet t k

/-- JS `Map.prototype.set`: replace in place when the key exists, else append. -/
def mapSet (l : List (String × DeviceRecord)) (k : String) (v : DeviceRecord) :
    List (String × DeviceRecord) :=
  match l with
  | [] => [(k, v)]
  | (k', v') :: t => if k' = k then (k, v) :: t else (k', v') :: mapSet t k v

/-- JS `Map.prototype.has`. -/
def mapHas (l : List (String × DeviceRecord)) (k : String) : Bool :=
  (mapGet l k).isSome

/-- The manager state: `this.devices` and `this.logs`. -/
structure State where
  devices : List (String × DeviceRecord) := []
  logs : List LogEntry := []
  deriving Repr, DecidableEq

/-- `DeviceManager._addLog`: push the entry, then shift the oldest entry
off the front when the length exceeds 10000. -/
def _addLog (logs : List LogEntry) (now : String) (type : String)
    (content : String) : List LogEntry :=
  let logs' := logs ++ [{ time := now, type := type, content := content }]
  if logs'.length > 10000 then logs'.tail else logs'

/-- The JS spread `{...device, ...data}`: every key present in `data`
overwrites the stored field, including keys whose value is `undefined`. -/
def mergeData (device : DeviceRecord) (data : UpdateData) : DeviceRecord :=
  { device with
      status := data.status.getD device.status
      disconnectTime := data.disconnectTime.getD device.disconnectTime
      alarm := data.alarm.getD device.alarm
      alarmTime := data.alarmTime.getD device.alarmTime
      heartRate := data.heartRate.getD device.heartRate
      bloodOxygen := data.bloodOxygen.getD device.bloodOxygen
      wristTemp := data.wristTemp.getD device.wristTemp
      bodyTemp := data.bodyTemp.getD device.bodyTemp
      wearStatus := data.wearStatus.getD device.wearStatus }

/-- `DeviceManager.addDevice`: store `{...deviceInfo, healthData: {}, alarm: []}`
and append an info log entry. -/
def addDevice (mgr : State) (mac : String) (deviceInfo : DeviceRecord)
    (now : String) : State :=
  { devices := mapSet mgr.devices mac
      { deviceInfo with healthData := some (), alarm := some [] }
    logs := _addLog mgr.logs now "info" ("设备上线：" ++ mac) }

/-- `DeviceManager.updateDeviceData`: silent no-op when the id is absent;
otherwise spread-merge, and append an alarm log entry when `data.alarm` is
truthy (a defined array — empty arrays are truthy in JS). -/
def updateDeviceData (mgr : State) (mac : String) (data : UpdateData)
    (now : String) : State :=
  match mapGet mgr.devices mac with
  | none => mgr
  | some device =>
    let mgr' : State :=
      { mgr with devices := mapSet mgr.devices mac (mergeData device data) }
    match data.alarm with
    | some (some lst) =>
      { mgr' with
          logs := _addLog mgr'.logs now "alarm"
            ("设备报警 [" ++ mac ++ "]：" ++ String.intercalate "," lst) }
    | _ => mgr'

/-- `DeviceManager.getDevice`. -/
def getDevice (mgr : State) (mac : String) : Option DeviceRecord :=
  mapGet mgr.devices mac

end DeviceManager

/-- The `parsedResult` value the publish handler ends up with: `null`, one of
the three typed records, or the unknown-frame object `{error, rawData}`. -/
inductive ParsedResult where
  | null
  | boot (r : ProtocolUtils.BootVersionRecord)
  | health (r : ProtocolUtils.HealthDataRecord)
  | alarm (r : ProtocolUtils.AlarmDataRecord)
  | unknownFrame (rawData : String) (error : String)
  deriving Repr, DecidableEq

/-- Truthy and without an `error` key: the guard `parsedResult && !parsedResult.error`. -/
def parsedResultTruthyNoError : ParsedResult → Bool
  | .null => false
  | .unknownFrame _ _ => false
  | _ => true

/-- `ParsedResult.isUnknownFrame`. -/
def ParsedResult.isUnknownFrame : ParsedResult → Bool
  | .unknownFrame _ _ => true
  | _ => false

/-- Everything the publish handler produces besides elided notifications:
the new registry state, the parse outcome, and the acknowledgment bytes
published on the downlink topic (when any). -/
structure PublishOutcome where
  manager : DeviceManager.State
  parsedResult : ParsedResult
  response : Option (List Nat)
  deriving Repr, DecidableEq

/-- The `Aedes.on('publish', …)` handler of `startMqttBroker` (main.ts):
dispatch on the 2-byte discriminant, parse, apply the registry update of the
health/alarm cases, then build the acknowledgment when the parse result is
truthy and has no `error` key. The payload hex round-trip
(`payload.toString('hex')` then `Buffer.from(hexData, 'hex')`) is the
identity on byte buffers and is elided. -/
def handlePublish (mgr : DeviceManager.State) (clientId : String)
    (buffer : List Nat) (now : String) : Except String PublishOutcome := do
  let frameType := ProtocolUtils.parseHeader buffer
  let step ←
    if frameType = some ProtocolUtils.FRAME_TYPE.BOOT_VERSION then do
      let pr ← ProtocolUtils.parseBootVersionFrame buffer
      pure (mgr, match pr with
        | some r => ParsedResult.boot r
        | none => ParsedResult.null)
    else if frameType = some ProtocolUtils.FRAME_TYPE.HEALTH_DATA then do
      let pr ← ProtocolUtils.parseHealthDataFrame buffer
      let hd := pr.bind (fun r => r.healthData)
      pure (DeviceManager.updateDeviceData mgr clientId
          { heartRate := some (hd.map (fun h => h.heartRate))
            bloodOxygen := some (hd.map (fun h => h.bloodOxygen))
            wristTemp := some (hd.map (fun h => h.wristTemp))
            bodyTemp := some (hd.map (fun h => h.bodyTemp))
            wearStatus := some (hd.map (fun h => h.wearStatus)) } now,
        match pr with
        | some r => ParsedResult.health r
        | none => ParsedResult.null)
    else if frameType = some ProtocolUtils.FRAME_TYPE.ALARM_DATA then do
      let pr ← ProtocolUtils.parseAlarmDataFrame buffer
      pure (DeviceManager.updateDeviceData mgr clientId
          { alarm := some (pr.map (fun r => r.alarmType))
            alarmTime := some (some now) } now,
        match pr with
        | some r => ParsedResult.alarm r
        | none => ParsedResult.null)
    else
      pure (mgr, ParsedResult.unknownFrame (bytesToHex buffer) "未知帧类型")
  let response :=
    if parsedResultTruthyNoError step.2 then
      match frameType with
      | some t => ProtocolUtils.generateResponseFrame (stripColons clientId) t
      | none => none
    else none
  pure ⟨step.1, step.2, response⟩

/-- The `Aedes.on('client', …)` handler: register the device online. -/
def onClientConnect (mgr : DeviceManager.State) (clientId : String)
    (now : String) (pid : Nat) : DeviceManager.State :=
  DeviceManager.addDevice mgr clientId
    { clientId := some clientId
      status := some "online"
      connectTime := some now
      processId := some pid } now

/-- The `Aedes.on('clientDisconnect', …)` handler: mark the device offline. -/
def onClientDisconnect (mgr : DeviceManager.State) (clientId : String)
    (now : String) : DeviceManager.State :=
  DeviceManager.updateDeviceData mgr clientId
    { status := some (some "offline"), disconnectTime := some (some now) } now

/-- The discriminant is present and one of the three known frame types. -/
def headerKnown (buffer : List Nat) : Prop :=
  ProtocolUtils.parseHeader buffer = some ProtocolUtils.FRAME_TYPE.BOOT_VERSION ∨
  ProtocolUtils.parseHeader buffer = some ProtocolUtils.FRAME_TYPE.HEALTH_DATA ∨
  ProtocolUtils.parseHeader buffer = some ProtocolUtils.FRAME_TYPE.ALARM_DATA

instance (buffer : List Nat) : Decidable (headerKnown buffer) := by
  unfold headerKnown; infer_instance

/-- Structural validity required of a boot-version frame: exact length 12
and tail byte `0x0D` at index 11. -/
def bootFrameShapeOk (buffer : List Nat) : Prop :=
  buffer.length = 12 ∧ buffer.getD 11 0 = 0x0D

instance (buffer : List Nat) : Decidable (bootFrameShapeOk buffer) := by
  unfold bootFrameShapeOk; infer_instance

/-- Structural validity required of a health or alarm frame: length at
least 13 and final byte `0x0D`. -/
def tailFrameShapeOk (buffer : List Nat) : Prop :=
  13 ≤ buffer.length ∧ buffer.getD (buffer.length - 1) 0 = 0x0D

instance (buffer : List Nat) : Decidable (tailFrameShapeOk buffer) := by
  unfold tailFrameShapeOk; infer_instance

/-- Folding the log-append operation over a list of entries, starting from
the empty log. -/
def logsAfter (es : List DeviceManager.LogEntry) : List DeviceManager.LogEntry :=
  es.foldl (fun logs e => DeviceManager._addLog logs e.time e.type e.content) []

/-- The `heartRate` field of a stored device record, when the device exists. -/
def heartRateOf (mgr : DeviceManager.State) (id : String) : Option (Option Nat) :=
  (DeviceManager.getDevice mgr id).map DeviceManager.DeviceRecord.heartRate

/-- `heartRateOf` of the manager state a publish handler run ends in
(`none` when the handler threw). -/
def outcomeHeartRate (e : Except String PublishOutcome) (id : String) :
    Option (Option Nat) :=
  match e with
  | .ok out => heartRateOf out.manager id
  | .error _ => none

/-- The parse result a publish handler run ends with (`none` when it threw). -/
def outcomeParsedResult (e : Except String PublishOutcome) : Option ParsedResult :=
  match e with
  | .ok out => some out.parsedResult
  | .error _ => none

namespace ProtocolUtils

theorem parseMAC_error_of_ne_nil (l : List Nat) (h : l ≠ []) :
    _parseMAC l = .error rangeErrorMsg := by
  cases l with
  | nil => exact absurd rfl h
  | cons b t => rfl

end ProtocolUtils

theorem bslice_2_8_ne_nil (buf : List Nat) (h : 3 ≤ buf.length) :
    bslice buf 2 8 ≠ [] := by
  intro hc
  have hl : (bslice buf 2 8).length = 0 := by rw [hc]; rfl
  unfold bslice at hl
  simp [List.length_take, List.length_drop] at hl
  omega

namespace DeviceManager

theorem mapGet_mapSet_self (l : List (String × DeviceRecord)) (k : String)
    (v : DeviceRecord) : mapGet (mapSet l k v) k = some v := by
  induction l with
  | nil => simp [mapSet, mapGet]
  | cons p t ih =>
    obtain ⟨k', v'⟩ := p
    by_cases h : k' = k
    · simp [mapSet, mapGet, h]
    · simp [mapSet, mapGet, h, ih]

theorem keys_mapSet_of_has (l : List (String × DeviceRecord)) (k : String)
    (v : DeviceRecord) (h : mapHas l k = true) :
    (mapSet l k v).map Prod.fst = l.map Prod.fst := by
  induction l with
  | nil => simp [mapHas, mapGet] at h
  | cons p t ih =>
    by_cases hk : p.1 = k
    · simp [mapSet, hk]
    · simp only [mapSet]
      rw [if_neg hk]
      simp only [List.map_cons, List.cons.injEq, true_and]
      apply ih
      simp only [mapHas, mapGet] at h ⊢
      rwa [if_neg hk] at h

theorem length_mapSet_of_has (l : List (String × DeviceRecord)) (k : String)
    (v : DeviceRecord) (h : mapHas l k = true) :
    (mapSet l k v).length = l.length := by
  have := keys_mapSet_of_has l k v h
  have h1 : ((mapSet l k v).map Prod.fst).length = (l.map Prod.fst).length := by rw [this]
  simpa [List.length_map] using h1

theorem addLog_length_le (logs : List LogEntry) (now ty content : String)
    (h : logs.length ≤ 10000) :
    (_addLog logs now ty content).length ≤ 10000 := by
  show (if (logs ++ [LogEntry.mk now ty content]).length > 10000
      then (logs ++ [LogEntry.mk now ty content]).tail
      else logs ++ [LogEntry.mk now ty content]).length ≤ 10000
  split
  · simp only [List.length_tail, List.length_append, List.length_cons, List.length_nil]
    omega
  · next hc =>
    simp only [List.length_append, List.length_cons, List.length_nil] at hc ⊢
    omega

end DeviceManager

theorem foldl_addLog_of_small (es : List DeviceManager.LogEntry) :
    ∀ acc : List DeviceManager.LogEntry, acc.length + es.length ≤ 10000 →
      es.foldl (fun logs e => DeviceManager._addLog logs e.time e.type e.content) acc =
        acc ++ es := by
  induction es with
  | nil => intro acc _; simp
  | cons e t ih =>
    intro acc hlen
    simp only [List.foldl_cons]
    have hstep : DeviceManager._addLog acc e.time e.type e.content = acc ++ [e] := by
      unfold DeviceManager._addLog
      rw [if_neg]
      simp only [List.length_append, List.length_cons, List.length_nil]
      simp only [List.length_cons] at hlen
      omega
    rw [hstep, ih (acc ++ [e]) (by simp [List.length_append]; simp [List.length_cons] at hlen; omega)]
    simp

theorem tail_head_eq_second (l : List DeviceManager.LogEntry) :
    l.tail.head? = l[1]? := by
  cases l with
  | nil => simp
  | cons a t =>
    cases t with
    | nil => simp
    | cons b t' => simp

theorem bufferFromHexList_length :
    ∀ l : List Char, (∀ c ∈ l, (hexVal c).isSome = true) →
      (bufferFromHexList l).length = l.length / 2
  | [], _ => by simp [bufferFromHexList]
  | [c], _ => by
    simp only [bufferFromHexList, List.length_nil, List.length_cons]
  | c1 :: c2 :: rest, h => by
    have h1 : (hexVal c1).isSome = true := h c1 (by simp)
    have h2 : (hexVal c2).isSome = true := h c2 (by simp)
    cases hv1 : hexVal c1 with
    | none => rw [hv1] at h1; simp at h1
    | some hi =>
      cases hv2 : hexVal c2 with
      | none => rw [hv2] at h2; simp at h2
      | some lo =>
        have ih := bufferFromHexList_length rest
          (fun c hc => h c (by simp [hc]))
        simp only [bufferFromHexList, hv1, hv2, List.length_cons, ih]
        omega

namespace ProtocolUtils

theorem parseBootVersionFrame_null (buffer : List Nat)
    (h : ¬ bootFrameShapeOk buffer) : parseBootVersionFrame buffer = .ok none := by
  unfold parseBootVersionFrame
  rw [if_pos]
  unfold bootFrameShapeOk at h
  simp only [PACKET_TAIL]
  tauto

theorem parseHealthDataFrame_null (buffer : List Nat)
    (h : ¬ tailFrameShapeOk buffer) : parseHealthDataFrame buffer = .ok none := by
  unfold parseHealthDataFrame
  rw [if_pos]
  unfold tailFrameShapeOk at h
  simp only [PACKET_TAIL]
  by_cases hl : 13 ≤ buffer.length
  · exact Or.inr (fun hc => h ⟨hl, hc⟩)
  · exact Or.inl (by omega)

theorem parseAlarmDataFrame_null (buffer : List Nat)
    (h : ¬ tailFrameShapeOk buffer) : parseAlarmDataFrame buffer = .ok none := by
  unfold parseAlarmDataFrame
  rw [if_pos]
  unfold tailFrameShapeOk at h
  simp only [PACKET_TAIL]
  by_cases hl : 13 ≤ buffer.length
  · exact Or.inr (fun hc => h ⟨hl, hc⟩)
  · exact Or.inl (by omega)

theorem parseHealthDataFrame_error (buffer : List Nat)
    (h : tailFrameShapeOk buffer) :
    parseHealthDataFrame buffer = .error rangeErrorMsg := by
  obtain ⟨hlen, htail⟩ := h
  unfold parseHealthDataFrame
  rw [if_neg (by simp only [PACKET_TAIL]; push_neg; exact ⟨by omega, htail⟩)]
  rw [parseMAC_error_of_ne_nil (bslice buffer 2 8) (bslice_2_8_ne_nil buffer (by omega))]
  rfl

theorem parseAlarmDataFrame_error (buffer : List Nat)
    (h : tailFrameShapeOk buffer) :
    parseAlarmDataFrame buffer = .error rangeErrorMsg := by
  obtain ⟨hlen, htail⟩ := h
  unfold parseAlarmDataFrame
  rw [if_neg (by simp only [PACKET_TAIL]; push_neg; exact ⟨by omega, htail⟩)]
  rw [parseMAC_error_of_ne_nil (bslice buffer 2 8) (bslice_2_8_ne_nil buffer (by omega))]
  rfl

theorem parseBootVersionFrame_error (buffer : List Nat)
    (h : bootFrameShapeOk buffer) :
    parseBootVersionFrame buffer = .error rangeErrorMsg := by
  obtain ⟨hlen, htail⟩ := h
  unfold parseBootVersionFrame
  rw [if_neg (by simp only [PACKET_TAIL]; push_neg; exact ⟨hlen, htail⟩)]
  rw [parseMAC_error_of_ne_nil (bslice buffer 2 8) (bslice_2_8_ne_nil buffer (by omega))]
  rfl

end ProtocolUtils

/-- A structurally valid boot-version frame: header AA 44, mac bytes
8e 83 c0 22 f6 04, version "1.0" in ascii, tail 0D — 12 bytes. -/
def bootDemoFrame : List Nat :=
  [0xAA, 0x44, 0x8e, 0x83, 0xc0, 0x22, 0xf6, 0x04, 0x31, 0x2e, 0x30, 0x0D]

/-- A structurally valid 13-byte health frame whose embedded block slice is
empty (shorter than 24 bytes). -/
def healthDemoNoBlock : List Nat :=
  [0xAA, 0x55, 0x8e, 0x83, 0xc0, 0x22, 0xf6, 0x04, 0x64, 0x01, 0x00, 0x19, 0x0D]

/-- A structurally valid 37-byte health frame carrying a 24-byte embedded
block (timestamp bytes 78 56 34 12 at block offsets 2..6). -/
def healthDemoWithBlock : List Nat :=
  [0xAA, 0x55, 0x8e, 0x83, 0xc0, 0x22, 0xf6, 0x04, 0x64, 0x01, 0x00, 0x19,
   0xAA, 0x66, 0x78, 0x56, 0x34, 0x12, 0x00, 0x00, 0x00, 0x01, 0x48, 0x62,
   0x01, 0x00, 0x00, 0x01, 0x2C, 0x00, 0x00, 0x01, 0x68, 0x11, 0x22, 0x33,
   0x0D]

/-- A structurally valid 13-byte alarm frame whose alarm byte (index 10)
is 0x03. -/
def alarmDemoFrame : List Nat :=
  [0xAA, 0x77, 0x8e, 0x83, 0xc0, 0x22, 0xf6, 0x04, 0x00, 0x04, 0x03, 0x00, 0x0D]

/-- Claim C2 (code bug): for a valid boot-version buffer (length 12, tail
`0x0D`, big-endian header `0xAA44`), the claim says `parse` yields a record
with a 17-character colon-hex mac and a 3-character ascii version; the code
instead throws a RangeError, because `_parseMAC` calls
`byte.toString('hex')` on a Number, and `'hex'` is an invalid radix. The
theorem evaluates the parser at such an input. -/
theorem c2_boot_parse_throws_range_error :
    bootDemoFrame.length = 12 ∧
    readUInt16BE bootDemoFrame 0 = 0xAA44 ∧
    bootDemoFrame.getD 11 0 = 0x0D ∧
    ProtocolUtils.parseBootVersionFrame bootDemoFrame = .error rangeErrorMsg :=
  ⟨rfl, rfl, rfl, rfl⟩

/-- Claim C4 (code bug): the claim says every structurally valid health
frame parses successfully — with an embedded block (little-endian timestamp)
when the slice is ≥ 24 bytes and without one otherwise. The code instead
throws the `_parseMAC` RangeError on every such buffer, before the block is
examined. The last two conjuncts exhibit, at the definitions the source
uses, the little-endian reading the claim describes (`_parseTimestamp` reads
78 56 34 12 as 0x12345678, inverted relative to the big-endian outer
header). -/
theorem c4_health_parse_throws_range_error :
    ProtocolUtils.parseHealthDataFrame healthDemoNoBlock = .error rangeErrorMsg ∧
    ProtocolUtils.parseHealthDataFrame healthDemoWithBlock = .error rangeErrorMsg ∧
    (bslice healthDemoWithBlock 12 (healthDemoWithBlock.length - 1)).length = 24 ∧
    ProtocolUtils._parseTimestamp [0x78, 0x56, 0x34, 0x12] = 0x12345678 ∧
    readUInt32BE [0x78, 0x56, 0x34, 0x12] 0 = 0x78563412 :=
  ⟨rfl, rfl, rfl, rfl, rfl⟩

/-- Claim C8 (code bug): `_parseAlarmType` itself decodes alarm byte 0x03
to the ordered list [low-battery, SOS] and 0x00 to [unknown], exactly as the
claim states; but `parseAlarmDataFrame` on a valid alarm frame throws the
`_parseMAC` RangeError before the record carrying `alarmType` is built. -/
theorem c8_alarm_type_decode_unreachable :
    ProtocolUtils._parseAlarmType 0x03 = ["低电量报警", "SOS报警"] ∧
    ProtocolUtils._parseAlarmType 0x00 = ["未知报警"] ∧
    alarmDemoFrame.getD 10 0 = 0x03 ∧
    readUInt16BE alarmDemoFrame 0 = 0xAA77 ∧
    ProtocolUtils.parseAlarmDataFrame alarmDemoFrame = .error rangeErrorMsg :=
  ⟨rfl, rfl, rfl, rfl, rfl⟩

/-- Claim C5 (confirmed): the log buffer never exceeds 10000 entries under
any sequence of appends (every mutation of `logs` goes through `_addLog`),
and eviction is FIFO: appending 10001 entries to an empty log leaves exactly
the last 10000 — the first-appended entry is evicted and the second-appended
entry becomes the first in the buffer. -/
theorem c5_log_ring_buffer_bound :
    (∀ (logs : List DeviceManager.LogEntry) (now ty content : String),
        logs.length ≤ 10000 →
          (DeviceManager._addLog logs now ty content).length ≤ 10000)
    ∧ (∀ es : List DeviceManager.LogEntry, es.length = 10001 →
        logsAfter es = es.tail ∧ (logsAfter es).length = 10000 ∧
          (logsAfter es).head? = es[1]?) := by
  constructor
  · exact fun logs now ty content h => DeviceManager.addLog_length_le logs now ty content h
  · intro es hlen
    rcases List.eq_nil_or_concat es with hnil | ⟨front, last, hconcat⟩
    · rw [hnil] at hlen
      exact absurd hlen (by decide)
    · rw [List.concat_eq_append] at hconcat
      have hfront : front.length = 10000 := by
        rw [hconcat] at hlen
        simp only [List.length_append, List.length_cons, List.length_nil] at hlen
        omega
      have hmain : logsAfter es = es.tail := by
        rw [hconcat]
        unfold logsAfter
        rw [List.foldl_append]
        rw [foldl_addLog_of_small front [] (by simp [hfront])]
        simp only [List.nil_append, List.foldl_cons, List.foldl_nil]
        have hstep : DeviceManager._addLog front last.time last.type last.content =
            (front ++ [last]).tail := by
          unfold DeviceManager._addLog
          rw [if_pos]
          · simp only [List.length_append, List.length_cons, List.length_nil]
            omega
        rw [hstep]
      refine ⟨hmain, ?_, ?_⟩
      · rw [hmain, List.length_tail, hlen]
      · rw [hmain, tail_head_eq_second]

/-- Concrete list of 10001 distinct log entries. -/
def demoLogEntries : List DeviceManager.LogEntry :=
  (List.range 10001).map (fun i => { time := toString i, type := "info", content := "m" })

/-- Witness for claim C5 at a concrete sequence of 10001 entries. -/
theorem c5_log_ring_buffer_bound_witness :
    logsAfter demoLogEntries = demoLogEntries.tail ∧
    (logsAfter demoLogEntries).length = 10000 ∧
    (logsAfter demoLogEntries).head? = demoLogEntries[1]? :=
  c5_log_ring_buffer_bound.2 demoLogEntries
    (by simp [demoLogEntries])

/-- Claim C6 (confirmed): `updateDeviceData` on an id absent from the
registry is a silent no-op — the state is returned unchanged, so the device
map (and its size) and the log buffer (and its length) are exactly as
before, and nothing is thrown (the function is total). -/
theorem c6_update_absent_id_noop (mgr : DeviceManager.State) (id : String)
    (data : DeviceManager.UpdateData) (now : String)
    (h : DeviceManager.getDevice mgr id = none) :
    DeviceManager.updateDeviceData mgr id data now = mgr ∧
    (DeviceManager.updateDeviceData mgr id data now).devices.length =
      mgr.devices.length ∧
    (DeviceManager.updateDeviceData mgr id data now).logs = mgr.logs := by
  unfold DeviceManager.getDevice at h
  unfold DeviceManager.updateDeviceData
  rw [h]
  exact ⟨rfl, rfl, rfl⟩

/-- Witness for claim C6: updating an id in the empty registry. -/
theorem c6_update_absent_id_noop_witness :
    DeviceManager.updateDeviceData {} "8e:83:c0:22:f6:04"
        { heartRate := some (some 70) } "t" = ({} : DeviceManager.State) ∧
    (DeviceManager.updateDeviceData {} "8e:83:c0:22:f6:04"
        { heartRate := some (some 70) } "t").devices.length =
      ({} : DeviceManager.State).devices.length ∧
    (DeviceManager.updateDeviceData {} "8e:83:c0:22:f6:04"
        { heartRate := some (some 70) } "t").logs =
      ({} : DeviceManager.State).logs :=
  c6_update_absent_id_noop {} "8e:83:c0:22:f6:04" { heartRate := some (some 70) } "t" rfl

namespace DeviceManager

theorem updateDeviceData_present_alarm (mgr : State) (id : String)
    (data : UpdateData) (now : String) (r : DeviceRecord) (lst : List String)
    (hr : mapGet mgr.devices id = some r) (ha : data.alarm = some (some lst)) :
    updateDeviceData mgr id data now =
      { devices := mapSet mgr.devices id (mergeData r data)
        logs := _addLog mgr.logs now "alarm"
          ("设备报警 [" ++ id ++ "]：" ++ String.intercalate "," lst) } := by
  unfold updateDeviceData
  rw [hr, ha]

theorem updateDeviceData_present_noalarm (mgr : State) (id : String)
    (data : UpdateData) (now : String) (r : DeviceRecord)
    (hr : mapGet mgr.devices id = some r)
    (hna : data.alarm = none ∨ data.alarm = some none) :
    updateDeviceData mgr id data now =
      { devices := mapSet mgr.devices id (mergeData r data), logs := mgr.logs } := by
  unfold updateDeviceData
  rw [hr]
  rcases hna with h | h <;> rw [h]

end DeviceManager

/-- Claim C9 (confirmed): a connect followed by a disconnect leaves the
device record with status gone from online to offline and `disconnectTime`
set, and the disconnect step changes nothing else — in particular the stored
last-known health fields survive it (the second conjunct states this for an
arbitrary pre-disconnect record). -/
theorem c9_connect_then_disconnect :
    (∀ (mgr : DeviceManager.State) (id now1 now2 : String) (pid : Nat),
      ∃ r1 r2 : DeviceManager.DeviceRecord,
        DeviceManager.getDevice (onClientConnect mgr id now1 pid) id = some r1 ∧
        r1.status = some "online" ∧
        DeviceManager.getDevice
            (onClientDisconnect (onClientConnect mgr id now1 pid) id now2) id =
          some r2 ∧
        r2.status = some "offline" ∧ r2.disconnectTime = some now2 ∧
        r2 = { r1 with status := some "offline", disconnectTime := some now2 })
    ∧ (∀ (mgr : DeviceManager.State) (id now : String)
          (r : DeviceManager.DeviceRecord),
        DeviceManager.getDevice mgr id = some r →
          DeviceManager.getDevice (onClientDisconnect mgr id now) id =
            some { r with status := some "offline", disconnectTime := some now } ∧
          (onClientDisconnect mgr id now).logs = mgr.logs) := by
  have key : ∀ (mgr : DeviceManager.State) (id now : String)
      (r : DeviceManager.DeviceRecord),
      DeviceManager.getDevice mgr id = some r →
        DeviceManager.getDevice (onClientDisconnect mgr id now) id =
          some { r with status := some "offline", disconnectTime := some now } ∧
        (onClientDisconnect mgr id now).logs = mgr.logs := by
    intro mgr id now r hr
    unfold DeviceManager.getDevice at hr
    have hd : onClientDisconnect mgr id now =
        { devices := DeviceManager.mapSet mgr.devices id
            (DeviceManager.mergeData r
              { status := some (some "offline"),
                disconnectTime := some (some now) })
          logs := mgr.logs } :=
      DeviceManager.updateDeviceData_present_noalarm mgr id _ now r hr
        (Or.inl rfl)
    rw [hd]
    constructor
    · unfold DeviceManager.getDevice
      rw [DeviceManager.mapGet_mapSet_self]
      rfl
    · rfl
  refine ⟨?_, key⟩
  intro mgr id now1 now2 pid
  have hget1 : DeviceManager.getDevice (onClientConnect mgr id now1 pid) id =
      some { clientId := some id, status := some "online",
             connectTime := some now1, processId := some pid,
             healthData := some (), alarm := some [] } := by
    unfold onClientConnect DeviceManager.addDevice DeviceManager.getDevice
    rw [DeviceManager.mapGet_mapSet_self]
  exact ⟨_, _, hget1, rfl,
    (key _ id now2 _ hget1).1, rfl, rfl, rfl⟩

/-- Witness for claim C9: a concrete connect/disconnect pair. -/
theorem c9_connect_then_disconnect_witness :
    DeviceManager.getDevice
        (onClientDisconnect (onClientConnect {} "d" "t1" 7) "d" "t2") "d" =
      some { clientId := some "d", status := some "offline",
             connectTime := some "t1", disconnectTime := some "t2",
             processId := some 7, healthData := some (), alarm := some [] } ∧
    (onClientDisconnect (onClientConnect {} "d" "t1" 7) "d" "t2").logs =
      (onClientConnect {} "d" "t1" 7).logs :=
  c9_connect_then_disconnect.2 (onClientConnect {} "d" "t1" 7) "d" "t2"
    { clientId := some "d", status := some "online", connectTime := some "t1",
      processId := some 7, healthData := some (), alarm := some [] } rfl

/-- A registry holding one device `"d"` with stored vitals. -/
def demoVitalsRecord : DeviceManager.DeviceRecord :=
  { clientId := some "d", status := some "online", connectTime := some "t0",
    processId := some 1, healthData := some (), alarm := some [],
    heartRate := some 70, bloodOxygen := some 98 }

def demoMgr3 : DeviceManager.State :=
  { devices := [("d", demoVitalsRecord)], logs := [] }

/-- Claim C10 (corrected): for a registered id, `updateDeviceData` appends
exactly one alarm-severity log entry iff the partial's `alarm` key holds a
defined (non-`undefined`) list — including the empty list, since JS treats
an empty array as truthy; with the key absent or `undefined` the log is
unchanged; in every case the key set and size of the device map are
unchanged. -/
theorem c10_update_alarm_logging (mgr : DeviceManager.State) (id : String)
    (data : DeviceManager.UpdateData) (now : String)
    (h : DeviceManager.mapHas mgr.devices id = true) :
    (∀ lst, data.alarm = some (some lst) →
      (DeviceManager.updateDeviceData mgr id data now).logs =
        DeviceManager._addLog mgr.logs now "alarm"
          ("设备报警 [" ++ id ++ "]：" ++ String.intercalate "," lst))
    ∧ (data.alarm = none ∨ data.alarm = some none →
        (DeviceManager.updateDeviceData mgr id data now).logs = mgr.logs)
    ∧ (DeviceManager.updateDeviceData mgr id data now).devices.map Prod.fst =
        mgr.devices.map Prod.fst
    ∧ (DeviceManager.updateDeviceData mgr id data now).devices.length =
        mgr.devices.length := by
  have hex : (DeviceManager.mapGet mgr.devices id).isSome = true := h
  obtain ⟨r, hr⟩ := Option.isSome_iff_exists.mp hex
  have hdev : (DeviceManager.updateDeviceData mgr id data now).devices =
      DeviceManager.mapSet mgr.devices id (DeviceManager.mergeData r data) := by
    rcases halarm : data.alarm with _ | l2
    · rw [DeviceManager.updateDeviceData_present_noalarm mgr id data now r hr
        (Or.inl halarm)]
    · rcases l2 with _ | lst
      · rw [DeviceManager.updateDeviceData_present_noalarm mgr id data now r hr
          (Or.inr halarm)]
      · rw [DeviceManager.updateDeviceData_present_alarm mgr id data now r lst hr
          halarm]
  refine ⟨?_, ?_, ?_, ?_⟩
  · intro lst hl
    rw [DeviceManager.updateDeviceData_present_alarm mgr id data now r lst hr hl]
  · intro hna
    rw [DeviceManager.updateDeviceData_present_noalarm mgr id data now r hr hna]
  · rw [hdev]
    exact DeviceManager.keys_mapSet_of_has mgr.devices id _ h
  · rw [hdev]
    exact DeviceManager.length_mapSet_of_has mgr.devices id _ h

/-- The alarm-case update object the publish handler passes for a decoded
SOS alarm. -/
def demoAlarmUpdate : DeviceManager.UpdateData :=
  { alarm := some (some ["SOS报警"]), alarmTime := some (some "t1") }

/-- Witness for claim C10: a defined alarm list appends one alarm log entry
and preserves the key set. -/
theorem c10_update_alarm_logging_witness :
    (DeviceManager.updateDeviceData demoMgr3 "d" demoAlarmUpdate "t1").logs =
      DeviceManager._addLog demoMgr3.logs "t1" "alarm"
        ("设备报警 [" ++ "d" ++ "]：" ++ String.intercalate "," ["SOS报警"]) ∧
    (DeviceManager.updateDeviceData demoMgr3 "d" demoAlarmUpdate "t1").devices.map
        Prod.fst = demoMgr3.devices.map Prod.fst :=
  ⟨(c10_update_alarm_logging demoMgr3 "d" demoAlarmUpdate "t1" rfl).1
      ["SOS报警"] rfl,
    (c10_update_alarm_logging demoMgr3 "d" demoAlarmUpdate "t1" rfl).2.2.1⟩

/-- An update object whose `alarm` key holds an empty list. -/
def demoEmptyAlarmUpdate : DeviceManager.UpdateData :=
  { alarm := some (some []) }

/-- Counterexample for claim C10 as stated: an *empty* alarm list is truthy
in JS, so `updateDeviceData` appends an alarm log entry even though the
partial carries no non-empty alarm field. -/
theorem c10_counterexample :
    demoMgr3.logs = [] ∧
    (DeviceManager.updateDeviceData demoMgr3 "d" demoEmptyAlarmUpdate "t1").logs =
      [{ time := "t1", type := "alarm", content := "设备报警 [d]：" }] :=
  ⟨rfl, rfl⟩

/-- Claim C7 (confirmed): for every 12-hex-character mac string,
`generateResponseFrame` yields exactly `AA 44 <6 mac bytes> 00 00 0D`
(11 bytes) for a boot-version frame, the matching 2-byte header plus mac,
`SUCCESS(0x01)` and tail (10 bytes) for health and alarm frames, and `none`
for every other frame tag. -/
theorem c7_generate_response_frame (mac : String)
    (h1 : mac.data.length = 12)
    (h2 : ∀ c ∈ mac.data, (hexVal c).isSome = true) :
    (ProtocolUtils.generateResponseFrame mac ProtocolUtils.FRAME_TYPE.BOOT_VERSION =
        some ([0xAA, 0x44] ++ bufferFromHex mac ++ [0x00, 0x00, 0x0D]) ∧
      ([0xAA, 0x44] ++ bufferFromHex mac ++ [0x00, 0x00, 0x0D]).length = 11)
    ∧ (ProtocolUtils.generateResponseFrame mac ProtocolUtils.FRAME_TYPE.HEALTH_DATA =
        some ([0xAA, 0x55] ++ bufferFromHex mac ++ [0x01, 0x0D]) ∧
      ([0xAA, 0x55] ++ bufferFromHex mac ++ [0x01, 0x0D]).length = 10)
    ∧ (ProtocolUtils.generateResponseFrame mac ProtocolUtils.FRAME_TYPE.ALARM_DATA =
        some ([0xAA, 0x77] ++ bufferFromHex mac ++ [0x01, 0x0D]) ∧
      ([0xAA, 0x77] ++ bufferFromHex mac ++ [0x01, 0x0D]).length = 10)
    ∧ (∀ t : Nat, t ≠ 0xAA44 → t ≠ 0xAA55 → t ≠ 0xAA77 →
        ProtocolUtils.generateResponseFrame mac t = none) := by
  have hlen : (bufferFromHex mac).length = 6 := by
    unfold bufferFromHex
    rw [bufferFromHexList_length mac.data h2, h1]
  refine ⟨⟨?_, ?_⟩, ⟨?_, ?_⟩, ⟨?_, ?_⟩, ?_⟩
  · simp [ProtocolUtils.generateResponseFrame, ProtocolUtils.FRAME_TYPE.BOOT_VERSION,
      ProtocolUtils.FRAME_TYPE.HEALTH_DATA, ProtocolUtils.FRAME_TYPE.ALARM_DATA,
      ProtocolUtils.UPGRADE_STATUS.NO_UPGRADE, ProtocolUtils.RESPONSE_STATUS.SUCCESS,
      ProtocolUtils.PACKET_TAIL]
  · simp [List.length_append, hlen]
  · simp [ProtocolUtils.generateResponseFrame, ProtocolUtils.FRAME_TYPE.BOOT_VERSION,
      ProtocolUtils.FRAME_TYPE.HEALTH_DATA, ProtocolUtils.FRAME_TYPE.ALARM_DATA,
      ProtocolUtils.UPGRADE_STATUS.NO_UPGRADE, ProtocolUtils.RESPONSE_STATUS.SUCCESS,
      ProtocolUtils.PACKET_TAIL]
  · simp [List.length_append, hlen]
  · simp [ProtocolUtils.generateResponseFrame, ProtocolUtils.FRAME_TYPE.BOOT_VERSION,
      ProtocolUtils.FRAME_TYPE.HEALTH_DATA, ProtocolUtils.FRAME_TYPE.ALARM_DATA,
      ProtocolUtils.UPGRADE_STATUS.NO_UPGRADE, ProtocolUtils.RESPONSE_STATUS.SUCCESS,
      ProtocolUtils.PACKET_TAIL]
  · simp [List.length_append, hlen]
  · intro t h3 h4 h5
    unfold ProtocolUtils.generateResponseFrame
    rw [if_neg, if_neg, if_neg]
    · exact fun hc => h5 (by simpa [ProtocolUtils.FRAME_TYPE.ALARM_DATA] using hc)
    · exact fun hc => h4 (by simpa [ProtocolUtils.FRAME_TYPE.HEALTH_DATA] using hc)
    · exact fun hc => h3 (by simpa [ProtocolUtils.FRAME_TYPE.BOOT_VERSION] using hc)

/-- Witness for claim C7 at the documented sample mac `8e83c022f604`. -/
theorem c7_generate_response_frame_witness :
    ProtocolUtils.generateResponseFrame "8e83c022f604"
        ProtocolUtils.FRAME_TYPE.BOOT_VERSION =
      some ([0xAA, 0x44] ++ bufferFromHex "8e83c022f604" ++ [0x00, 0x00, 0x0D]) ∧
    ([0xAA, 0x44] ++ bufferFromHex "8e83c022f604" ++ [0x00, 0x00, 0x0D]).length = 11 :=
  (c7_generate_response_frame "8e83c022f604" (by decide) (by decide)).1

/-- Claim C1 (amended): decode never throws on structurally malformed input,
but the failure shape depends on the discriminant. A missing or unknown
discriminant yields the unknown-frame object `{error, rawData}` (with the
raw hex); a *known* discriminant whose buffer fails the length/tail
validation yields a null parse result — not an `UnknownFrame` — and no
acknowledgment. Before returning, the health case still invokes the registry
update with the five vitals keys carrying `undefined`, and the alarm case
invokes it with `alarm` carrying `undefined` and `alarmTime` set to the
current time; the boot case touches nothing. -/
theorem c1_structural_failure_dispatch (mgr : DeviceManager.State)
    (id now : String) (buf : List Nat) :
    (¬ headerKnown buf →
      handlePublish mgr id buf now =
        .ok ⟨mgr, ParsedResult.unknownFrame (bytesToHex buf) "未知帧类型", none⟩)
    ∧ (ProtocolUtils.parseHeader buf = some ProtocolUtils.FRAME_TYPE.BOOT_VERSION →
        ¬ bootFrameShapeOk buf →
          handlePublish mgr id buf now = .ok ⟨mgr, ParsedResult.null, none⟩)
    ∧ (ProtocolUtils.parseHeader buf = some ProtocolUtils.FRAME_TYPE.HEALTH_DATA →
        ¬ tailFrameShapeOk buf →
          handlePublish mgr id buf now =
            .ok ⟨DeviceManager.updateDeviceData mgr id
                  { heartRate := some none, bloodOxygen := some none,
                    wristTemp := some none, bodyTemp := some none,
                    wearStatus := some none } now,
                ParsedResult.null, none⟩)
    ∧ (ProtocolUtils.parseHeader buf = some ProtocolUtils.FRAME_TYPE.ALARM_DATA →
        ¬ tailFrameShapeOk buf →
          handlePublish mgr id buf now =
            .ok ⟨DeviceManager.updateDeviceData mgr id
                  { alarm := some none, alarmTime := some (some now) } now,
                ParsedResult.null, none⟩) := by
  refine ⟨?_, ?_, ?_, ?_⟩
  · intro h
    unfold headerKnown at h
    push_neg at h
    obtain ⟨h1, h2, h3⟩ := h
    unfold handlePublish
    dsimp only
    rw [if_neg h1, if_neg h2, if_neg h3]
    rfl
  · intro hp hs
    unfold handlePublish
    dsimp only
    rw [hp, if_pos rfl, ProtocolUtils.parseBootVersionFrame_null buf hs]
    rfl
  · intro hp hs
    unfold handlePublish
    dsimp only
    rw [hp, if_neg (by decide), if_pos rfl,
      ProtocolUtils.parseHealthDataFrame_null buf hs]
    rfl
  · intro hp hs
    unfold handlePublish
    dsimp only
    rw [hp, if_neg (by decide), if_neg (by decide), if_pos rfl,
      ProtocolUtils.parseAlarmDataFrame_null buf hs]
    rfl

/-- Witness for claim C1 (amended) at a buffer with an unknown discriminant. -/
theorem c1_structural_failure_dispatch_witness :
    handlePublish {} "d" [0x01, 0x02] "t" =
      .ok ⟨{}, ParsedResult.unknownFrame (bytesToHex [0x01, 0x02]) "未知帧类型", none⟩ :=
  (c1_structural_failure_dispatch {} "d" "t" [0x01, 0x02]).1 (by decide)

/-- Counterexample for claim C1 as stated: the buffer `AA 44` is shorter
than the boot-version frame requires, a structural failure, yet the publish
handler's parse result is `null` (an absent result), not an `UnknownFrame`
carrying hex and reason. -/
theorem c1_counterexample :
    ProtocolUtils.parseHeader [0xAA, 0x44] =
      some ProtocolUtils.FRAME_TYPE.BOOT_VERSION ∧
    handlePublish {} "d" [0xAA, 0x44] "t" = .ok ⟨{}, ParsedResult.null, none⟩ ∧
    ParsedResult.null.isUnknownFrame = false :=
  ⟨rfl, rfl, rfl⟩

/-- Claim C3 (amended): for every publish whose discriminant is `0xAA55`,
the handler always calls `updateDeviceData` with the five vitals keys
present; when the buffer fails the length/tail validation the parse result
is null and all five are forwarded as `undefined`, overwriting the device's
stored vitals; when the buffer passes validation, parsing throws the
`_parseMAC` RangeError before any update happens. Vitals are therefore
never forwarded from an actual embedded health block, and a stored record's
vitals do not survive a malformed health publish. -/
theorem c3_health_publish_update (mgr : DeviceManager.State) (id now : String)
    (buf : List Nat)
    (hp : ProtocolUtils.parseHeader buf = some ProtocolUtils.FRAME_TYPE.HEALTH_DATA) :
    (¬ tailFrameShapeOk buf →
      handlePublish mgr id buf now =
        .ok ⟨DeviceManager.updateDeviceData mgr id
              { heartRate := some none, bloodOxygen := some none,
                wristTemp := some none, bodyTemp := some none,
                wearStatus := some none } now,
            ParsedResult.null, none⟩)
    ∧ (tailFrameShapeOk buf →
        handlePublish mgr id buf now = .error rangeErrorMsg) := by
  constructor
  · intro hs
    unfold handlePublish
    dsimp only
    rw [hp, if_neg (by decide), if_pos rfl,
      ProtocolUtils.parseHealthDataFrame_null buf hs]
    rfl
  · intro hs
    unfold handlePublish
    dsimp only
    rw [hp, if_neg (by decide), if_pos rfl,
      ProtocolUtils.parseHealthDataFrame_error buf hs]
    rfl

/-- Witness for claim C3 (amended): a structurally valid health frame makes
the publish handler throw before any registry update. -/
theorem c3_health_publish_update_witness :
    handlePublish {} "d" healthDemoNoBlock "t" = .error rangeErrorMsg :=
  (c3_health_publish_update {} "d" "t" healthDemoNoBlock rfl).2 (by decide)

/-- Counterexample for claim C3 as stated: device `"d"` holds heartRate 70;
publishing the malformed 3-byte buffer `AA 55 0D` — which decodes to a null
result, not a `HealthDataFrame` with an embedded block — still overwrites
the stored vitals with `undefined`, so they are forwarded into the update
even without an embedded health block. -/
theorem c3_counterexample :
    heartRateOf demoMgr3 "d" = some (some 70) ∧
    outcomeParsedResult (handlePublish demoMgr3 "d" [0xAA, 0x55, 0x0D] "t1") =
      some ParsedResult.null ∧
    outcomeHeartRate (handlePublish demoMgr3 "d" [0xAA, 0x55, 0x0D] "t1") "d" =
      some none :=
  ⟨rfl, rfl, rfl⟩
